import Mathlib

/-!
Verification of the exponential leveling / points-progress engine of the
chore-app repository.

The engine lives twice in the repository with identical logic:
* server side (`server/utils/levelingSystem.js`, seen here as
  `src/unnamed/part_000`, lines 392-493);
* client side (`src/client/src/utils/levelingSystem.ts`).

The JavaScript source computes `Math.floor(BASE_POINTS * Math.pow(MULTIPLIER,
level - 1))` with `BASE_POINTS = 50` and `MULTIPLIER = 1.5`.  Since
`1.5 = 3/2` exactly, the embedding works in exact arithmetic:
`floor(50 * (3/2)^n) = 50 * 3^n / 2^n` with natural-number (floor) division.
The IEEE-754 evaluation in the source is exact for every level reachable in
the concrete scenarios considered here (the product `50 * 3^n` stays below
`2^53` for all step costs involved), so the exact-arithmetic embedding agrees
with the source on them.

Point totals are embedded as `ℤ` (the engine explicitly handles negative
totals); levels and the internal accumulator `pointsUsed` are `ℕ`.
A second embedding over `ℚ` captures the behaviour of the very same code on
non-integer (fractional) inputs, which JavaScript does not rule out.
-/

/-- `const BASE_POINTS = 50;` (server and client define it identically). -/
def BASE_POINTS : ℕ := 50

/-- `const MULTIPLIER = 1.5;` — the literal 1.5 is exactly 3/2. -/
def MULTIPLIER : ℚ := 3 / 2

/-- `getPointsRequiredForLevelUp(currentLevel)` =
`Math.floor(BASE_POINTS * Math.pow(MULTIPLIER, currentLevel - 1))`.
In exact arithmetic `floor(50 * (3/2)^(n)) = 50 * 3^n / 2^n` with `ℕ`
floor division (lemma `getPointsRequiredForLevelUp_eq_floor` below connects
this to the floor-of-rational form). -/
def getPointsRequiredForLevelUp (currentLevel : ℕ) : ℕ :=
  BASE_POINTS * 3 ^ (currentLevel - 1) / 2 ^ (currentLevel - 1)

/-- `getPointsRequiredForLevel(level)`: returns 0 for `level <= 1`, otherwise
the for-loop `for (i = 1; i < level; i++) totalPoints += getPointsRequiredForLevelUp(i)`,
i.e. the sum over `i ∈ [1, level)`.  The final `Math.floor(totalPoints)` of
the source is the identity on this integer sum. -/
def getPointsRequiredForLevel (level : ℕ) : ℕ :=
  if level ≤ 1 then 0
  else ∑ i in Finset.Ico 1 level, getPointsRequiredForLevelUp i

/-- The `while (true)` loop body of `calculateLevelFromPoints`: with
accumulator `pointsUsed` and current `level`, break and return `level` when
`pointsUsed + pointsNeeded > totalPoints`, else consume the step cost and
advance the level. -/
def levelLoop (totalPoints : ℤ) (level : ℕ) (pointsUsed : ℕ) : ℕ :=
  if totalPoints < ((pointsUsed + getPointsRequiredForLevelUp level : ℕ) : ℤ) then
    level
  else
    levelLoop totalPoints (level + 1) (pointsUsed + getPointsRequiredForLevelUp level)
termination_by totalPoints.toNat + 1 - pointsUsed
decreasing_by
  have h50 : 50 ≤ getPointsRequiredForLevelUp level := by
    show 50 ≤ BASE_POINTS * 3 ^ (level - 1) / 2 ^ (level - 1)
    rw [Nat.le_div_iff_mul_le (Nat.pos_pow_of_pos _ (by norm_num))]
    calc 50 * 2 ^ (level - 1) ≤ 50 * 3 ^ (level - 1) :=
          Nat.mul_le_mul_left _ (Nat.pow_le_pow_left (by norm_num) _)
      _ = BASE_POINTS * 3 ^ (level - 1) := rfl
  omega

/-- `calculateLevelFromPoints(totalPoints)`: returns 1 for negative totals,
otherwise runs the loop starting at level 1 with 0 points used. -/
def calculateLevelFromPoints (totalPoints : ℤ) : ℕ :=
  if totalPoints < 0 then 1 else levelLoop totalPoints 1 0

/-- The record returned by `getLevelProgress` (client interface
`LevelProgress`; the server returns a plain object with the same fields). -/
structure LevelProgress where
  currentLevel : ℕ
  totalPoints : ℤ
  pointsInCurrentLevel : ℤ
  pointsNeededForNextLevel : ℤ
  progressPercentage : ℤ
  pointsToNextLevel : ℤ
deriving DecidableEq

/-- `getLevelProgress(totalPoints)`.  The source computes
`Math.floor((pointsInCurrentLevel / pointsNeededForNextLevel) * 100)`; in
exact arithmetic that is the floor division `(pointsInCurrentLevel * 100).fdiv
pointsNeededForNextLevel` (`Int.fdiv` is floor division). -/
def getLevelProgress (totalPoints : ℤ) : LevelProgress :=
  let currentLevel := calculateLevelFromPoints totalPoints
  let pointsRequiredForCurrentLevel : ℤ := getPointsRequiredForLevel currentLevel
  let pointsRequiredForNextLevel : ℤ := getPointsRequiredForLevel (currentLevel + 1)
  let pointsInCurrentLevel := totalPoints - pointsRequiredForCurrentLevel
  let pointsNeededForNextLevel := pointsRequiredForNextLevel - pointsRequiredForCurrentLevel
  let progressPercentage := (pointsInCurrentLevel * 100).fdiv pointsNeededForNextLevel
  { currentLevel := currentLevel
    totalPoints := totalPoints
    pointsInCurrentLevel := pointsInCurrentLevel
    pointsNeededForNextLevel := pointsNeededForNextLevel
    progressPercentage := progressPercentage
    pointsToNextLevel := pointsNeededForNextLevel - pointsInCurrentLevel }

/-- The record returned by `checkLevelUp`. -/
structure LevelUpResult where
  leveledUp : Bool
  oldLevel : ℕ
  newLevel : ℕ
  levelsGained : ℤ
deriving DecidableEq

/-- `checkLevelUp(oldPoints, newPoints)` (server only). -/
def checkLevelUp (oldPoints newPoints : ℤ) : LevelUpResult :=
  let oldLevel := calculateLevelFromPoints oldPoints
  let newLevel := calculateLevelFromPoints newPoints
  { leveledUp := decide (oldLevel < newLevel)
    oldLevel := oldLevel
    newLevel := newLevel
    levelsGained := (newLevel : ℤ) - (oldLevel : ℤ) }

/-- The same `while (true)` loop viewed as a step-indexed process: `none`
means the loop has not yet exited within the given number of iterations.
This models the unbounded iteration of the source directly; the termination
claim is that for every input some iteration count suffices. -/
def levelLoopFuel (totalPoints : ℤ) (level pointsUsed : ℕ) : ℕ → Option ℕ
  | 0 => none
  | fuel + 1 =>
    if totalPoints < ((pointsUsed + getPointsRequiredForLevelUp level : ℕ) : ℤ) then
      some level
    else
      levelLoopFuel totalPoints (level + 1) (pointsUsed + getPointsRequiredForLevelUp level) fuel

/-- The very same loop of `calculateLevelFromPoints`, run on a rational
total.  JavaScript places no integrality restriction on `totalPoints`; this
embedding captures what the source does on a finite non-integer input such
as `0.5` (exactly representable in IEEE-754). -/
def levelLoopQ (totalPoints : ℚ) (level : ℕ) (pointsUsed : ℕ) : ℕ :=
  if totalPoints < ((pointsUsed + getPointsRequiredForLevelUp level : ℕ) : ℚ) then
    level
  else
    levelLoopQ totalPoints (level + 1) (pointsUsed + getPointsRequiredForLevelUp level)
termination_by (⌊totalPoints⌋).toNat + 1 - pointsUsed
decreasing_by
  have h50 : 50 ≤ getPointsRequiredForLevelUp level := by
    show 50 ≤ BASE_POINTS * 3 ^ (level - 1) / 2 ^ (level - 1)
    rw [Nat.le_div_iff_mul_le (Nat.pos_pow_of_pos _ (by norm_num))]
    calc 50 * 2 ^ (level - 1) ≤ 50 * 3 ^ (level - 1) :=
          Nat.mul_le_mul_left _ (Nat.pow_le_pow_left (by norm_num) _)
      _ = BASE_POINTS * 3 ^ (level - 1) := rfl
  have hle : ((pointsUsed + getPointsRequiredForLevelUp level : ℕ) : ℤ) ≤ ⌊totalPoints⌋ := by
    rw [Int.le_floor]
    push_cast
    push_cast at *
    linarith
  omega

/-- `calculateLevelFromPoints` on a rational (finite, possibly fractional)
total — the behaviour of the identical JavaScript function when handed a
non-integer number. -/
def calculateLevelFromPointsQ (totalPoints : ℚ) : ℕ :=
  if totalPoints < 0 then 1 else levelLoopQ totalPoints 1 0

namespace Client

/-- `const BASE_POINTS = 50;` in `client/src/utils/levelingSystem.ts`. -/
def BASE_POINTS : ℕ := 50

/-- `const MULTIPLIER = 1.5;` in `client/src/utils/levelingSystem.ts`. -/
def MULTIPLIER : ℚ := 3 / 2

/-- Client-side `getPointsRequiredForLevelUp` (same body as the server). -/
def getPointsRequiredForLevelUp (currentLevel : ℕ) : ℕ :=
  BASE_POINTS * 3 ^ (currentLevel - 1) / 2 ^ (currentLevel - 1)

/-- Client-side `getPointsRequiredForLevel` (same body as the server). -/
def getPointsRequiredForLevel (level : ℕ) : ℕ :=
  if level ≤ 1 then 0
  else ∑ i in Finset.Ico 1 level, getPointsRequiredForLevelUp i

/-- Client-side `while (true)` loop of `calculateLevelFromPoints`. -/
def levelLoop (totalPoints : ℤ) (level : ℕ) (pointsUsed : ℕ) : ℕ :=
  if totalPoints < ((pointsUsed + getPointsRequiredForLevelUp level : ℕ) : ℤ) then
    level
  else
    levelLoop totalPoints (level + 1) (pointsUsed + getPointsRequiredForLevelUp level)
termination_by totalPoints.toNat + 1 - pointsUsed
decreasing_by
  have h50 : 50 ≤ getPointsRequiredForLevelUp level := by
    show 50 ≤ BASE_POINTS * 3 ^ (level - 1) / 2 ^ (level - 1)
    rw [Nat.le_div_iff_mul_le (Nat.pos_pow_of_pos _ (by norm_num))]
    calc 50 * 2 ^ (level - 1) ≤ 50 * 3 ^ (level - 1) :=
          Nat.mul_le_mul_left _ (Nat.pow_le_pow_left (by norm_num) _)
      _ = BASE_POINTS * 3 ^ (level - 1) := rfl
  omega

/-- Client-side `calculateLevelFromPoints` (same body as the server). -/
def calculateLevelFromPoints (totalPoints : ℤ) : ℕ :=
  if totalPoints < 0 then 1 else levelLoop totalPoints 1 0

/-- Client-side `getLevelProgress` (same body as the server). -/
def getLevelProgress (totalPoints : ℤ) : LevelProgress :=
  let currentLevel := calculateLevelFromPoints totalPoints
  let pointsRequiredForCurrentLevel : ℤ := getPointsRequiredForLevel currentLevel
  let pointsRequiredForNextLevel : ℤ := getPointsRequiredForLevel (currentLevel + 1)
  let pointsInCurrentLevel := totalPoints - pointsRequiredForCurrentLevel
  let pointsNeededForNextLevel := pointsRequiredForNextLevel - pointsRequiredForCurrentLevel
  let progressPercentage := (pointsInCurrentLevel * 100).fdiv pointsNeededForNextLevel
  { currentLevel := currentLevel
    totalPoints := totalPoints
    pointsInCurrentLevel := pointsInCurrentLevel
    pointsNeededForNextLevel := pointsNeededForNextLevel
    progressPercentage := progressPercentage
    pointsToNextLevel := pointsNeededForNextLevel - pointsInCurrentLevel }

end Client

/-! ## Basic facts about the step and cumulative cost functions -/

/-- Every step cost is at least `BASE_POINTS = 50`, since the growth factor
is at least 1. -/
theorem getPointsRequiredForLevelUp_ge (L : ℕ) : 50 ≤ getPointsRequiredForLevelUp L := by
  show 50 ≤ BASE_POINTS * 3 ^ (L - 1) / 2 ^ (L - 1)
  rw [Nat.le_div_iff_mul_le (Nat.pos_pow_of_pos _ (by norm_num))]
  calc 50 * 2 ^ (L - 1) ≤ 50 * 3 ^ (L - 1) :=
        Nat.mul_le_mul_left _ (Nat.pow_le_pow_left (by norm_num) _)
    _ = BASE_POINTS * 3 ^ (L - 1) := rfl

/-- The `ℕ`-division form of the step cost is exactly the floor of
`BASE_POINTS * MULTIPLIER ^ (level - 1)`, the expression computed by the
source. -/
theorem getPointsRequiredForLevelUp_eq_floor (n : ℕ) :
    (getPointsRequiredForLevelUp n : ℤ) = ⌊(BASE_POINTS : ℚ) * MULTIPLIER ^ (n - 1)⌋ := by
  have h : (BASE_POINTS : ℚ) * MULTIPLIER ^ (n - 1)
      = ((BASE_POINTS * 3 ^ (n - 1) : ℕ) : ℚ) / ((2 ^ (n - 1) : ℕ) : ℚ) := by
    rw [MULTIPLIER, div_pow]
    push_cast
    ring
  rw [h, Rat.floor_natCast_div_natCast]
  rfl

/-- The cumulative cost is the sum of step costs over `[1, level)` for every
level (the `level ≤ 1` branch returns the empty sum). -/
theorem getPointsRequiredForLevel_eq_sum (L : ℕ) :
    getPointsRequiredForLevel L = ∑ i in Finset.Ico 1 L, getPointsRequiredForLevelUp i := by
  unfold getPointsRequiredForLevel
  split
  · next h => rw [Finset.Ico_eq_empty (by omega), Finset.sum_empty]
  · rfl

/-- Cumulative cost recurrence: reaching level `L+1` costs reaching `L` plus
the step cost out of `L` (for `L ≥ 1`). -/
theorem getPointsRequiredForLevel_succ (L : ℕ) (hL : 1 ≤ L) :
    getPointsRequiredForLevel (L + 1) =
      getPointsRequiredForLevel L + getPointsRequiredForLevelUp L := by
  rw [getPointsRequiredForLevel_eq_sum, getPointsRequiredForLevel_eq_sum,
    Finset.sum_Ico_succ_top hL]

/-- Cumulative cost is monotone in the level. -/
theorem getPointsRequiredForLevel_mono {L M : ℕ} (h : L ≤ M) :
    getPointsRequiredForLevel L ≤ getPointsRequiredForLevel M := by
  rw [getPointsRequiredForLevel_eq_sum, getPointsRequiredForLevel_eq_sum]
  exact Finset.sum_le_sum_of_subset (Finset.Ico_subset_Ico le_rfl h)

/-! ## The while loop of calculateLevelFromPoints -/

/-- Loop invariant of the `while (true)` loop: if the accumulator equals the
cumulative cost of the current level and does not exceed the total, the loop
returns a level at least 1 whose cumulative bracket contains the total. -/
theorem levelLoop_invariant (totalPoints : ℤ) :
    ∀ (level pointsUsed : ℕ), 1 ≤ level → (pointsUsed : ℤ) ≤ totalPoints →
      pointsUsed = getPointsRequiredForLevel level →
      1 ≤ levelLoop totalPoints level pointsUsed ∧
        (getPointsRequiredForLevel (levelLoop totalPoints level pointsUsed) : ℤ) ≤ totalPoints ∧
        totalPoints < getPointsRequiredForLevel (levelLoop totalPoints level pointsUsed + 1) := by
  intro level pointsUsed
  induction level, pointsUsed using levelLoop.induct totalPoints with
  | case1 level pointsUsed h =>
    intro hL hle hacc
    unfold levelLoop
    rw [if_pos h]
    refine ⟨hL, ?_, ?_⟩
    · rw [← hacc]; exact hle
    · rw [getPointsRequiredForLevel_succ level hL, ← hacc]
      exact h
  | case2 level pointsUsed h ih =>
    intro hL hle hacc
    unfold levelLoop
    rw [if_neg h]
    refine ih (by omega) (not_lt.mp h) ?_
    rw [getPointsRequiredForLevel_succ level hL, hacc]

/-- For a non-negative total, `calculateLevelFromPoints` returns a level
`≥ 1` whose cumulative bracket contains the total. -/
theorem calculateLevelFromPoints_spec (T : ℤ) (hT : 0 ≤ T) :
    1 ≤ calculateLevelFromPoints T ∧
      (getPointsRequiredForLevel (calculateLevelFromPoints T) : ℤ) ≤ T ∧
      T < getPointsRequiredForLevel (calculateLevelFromPoints T + 1) := by
  unfold calculateLevelFromPoints
  rw [if_neg (not_lt.mpr hT)]
  exact levelLoop_invariant T 1 0 le_rfl (by exact_mod_cast hT) rfl

/-- The derived level is always at least 1, for any integer total. -/
theorem calculateLevelFromPoints_pos (T : ℤ) : 1 ≤ calculateLevelFromPoints T := by
  unfold calculateLevelFromPoints
  split
  · exact le_rfl
  · next h => exact (levelLoop_invariant T 1 0 le_rfl (by omega) rfl).1

/-- Characterisation: the derived level is the unique `L ≥ 1` with
`cumulative(L) ≤ T < cumulative(L+1)`. -/
theorem calculateLevelFromPoints_eq_of {T : ℤ} {L : ℕ} (_hL : 1 ≤ L)
    (h1 : (getPointsRequiredForLevel L : ℤ) ≤ T)
    (h2 : T < getPointsRequiredForLevel (L + 1)) :
    calculateLevelFromPoints T = L := by
  have hT : 0 ≤ T := le_trans (Int.natCast_nonneg _) h1
  obtain ⟨hM1, hM2, hM3⟩ := calculateLevelFromPoints_spec T hT
  rcases lt_trichotomy (calculateLevelFromPoints T) L with h | h | h
  · exfalso
    have hc : (getPointsRequiredForLevel (calculateLevelFromPoints T + 1) : ℤ) ≤
        getPointsRequiredForLevel L := by
      exact_mod_cast getPointsRequiredForLevel_mono h
    linarith
  · exact h
  · exfalso
    have hc : (getPointsRequiredForLevel (L + 1) : ℤ) ≤
        getPointsRequiredForLevel (calculateLevelFromPoints T) := by
      exact_mod_cast getPointsRequiredForLevel_mono h
    linarith

/-- Monotonicity of the derived level in the total. -/
theorem calculateLevelFromPoints_le {a b : ℤ} (ha : 0 ≤ a) (hab : a ≤ b) :
    calculateLevelFromPoints a ≤ calculateLevelFromPoints b := by
  obtain ⟨hA1, hA2, hA3⟩ := calculateLevelFromPoints_spec a ha
  obtain ⟨hB1, hB2, hB3⟩ := calculateLevelFromPoints_spec b (le_trans ha hab)
  by_contra hlt
  have hc : (getPointsRequiredForLevel (calculateLevelFromPoints b + 1) : ℤ) ≤
      getPointsRequiredForLevel (calculateLevelFromPoints a) := by
    exact_mod_cast getPointsRequiredForLevel_mono (by omega)
  linarith

/-- `calculateLevelFromPoints(0) = 1`. -/
theorem calculateLevelFromPoints_zero : calculateLevelFromPoints 0 = 1 :=
  calculateLevelFromPoints_eq_of le_rfl (by decide) (by decide)

/-- `calculateLevelFromPoints(300) = 4`: the cumulative costs satisfy
`c(4) = 237 ≤ 300 < 405 = c(5)`. -/
theorem calculateLevelFromPoints_three_hundred : calculateLevelFromPoints 300 = 4 :=
  calculateLevelFromPoints_eq_of (by norm_num) (by decide) (by decide)

/-! ## Field-level description of getLevelProgress -/

/-- `currentLevel` field of the progress report. -/
theorem getLevelProgress_currentLevel (T : ℤ) :
    (getLevelProgress T).currentLevel = calculateLevelFromPoints T := rfl

/-- `totalPoints` field of the progress report. -/
theorem getLevelProgress_totalPoints (T : ℤ) :
    (getLevelProgress T).totalPoints = T := rfl

/-- `pointsInCurrentLevel` field of the progress report. -/
theorem getLevelProgress_pointsInCurrentLevel (T : ℤ) :
    (getLevelProgress T).pointsInCurrentLevel =
      T - getPointsRequiredForLevel (calculateLevelFromPoints T) := rfl

/-- `pointsNeededForNextLevel` field of the progress report. -/
theorem getLevelProgress_pointsNeededForNextLevel (T : ℤ) :
    (getLevelProgress T).pointsNeededForNextLevel =
      (getPointsRequiredForLevel (calculateLevelFromPoints T + 1) : ℤ) -
        getPointsRequiredForLevel (calculateLevelFromPoints T) := rfl

/-- `progressPercentage` field of the progress report. -/
theorem getLevelProgress_progressPercentage (T : ℤ) :
    (getLevelProgress T).progressPercentage =
      ((T - (getPointsRequiredForLevel (calculateLevelFromPoints T) : ℤ)) * 100).fdiv
        ((getPointsRequiredForLevel (calculateLevelFromPoints T + 1) : ℤ) -
          getPointsRequiredForLevel (calculateLevelFromPoints T)) := rfl

/-- `pointsToNextLevel` field of the progress report. -/
theorem getLevelProgress_pointsToNextLevel (T : ℤ) :
    (getLevelProgress T).pointsToNextLevel =
      ((getPointsRequiredForLevel (calculateLevelFromPoints T + 1) : ℤ) -
          getPointsRequiredForLevel (calculateLevelFromPoints T)) -
        (T - getPointsRequiredForLevel (calculateLevelFromPoints T)) := rfl

/-- Bounds for the floored percentage `floor(pic * 100 / pnn)` when
`0 ≤ pic < pnn`. -/
theorem pct_bounds {pic pnn : ℤ} (h0 : 0 ≤ pic) (h1 : pic < pnn) :
    0 ≤ (pic * 100).fdiv pnn ∧ (pic * 100).fdiv pnn ≤ 100 := by
  have hpnn : 0 < pnn := lt_of_le_of_lt h0 h1
  rw [Int.fdiv_eq_ediv _ (le_of_lt hpnn)]
  constructor
  · exact Int.ediv_nonneg (by positivity) (le_of_lt hpnn)
  · calc pic * 100 / pnn ≤ pnn * 100 / pnn :=
          Int.ediv_le_ediv hpnn (by nlinarith)
      _ = 100 := Int.mul_ediv_cancel_left _ (ne_of_gt hpnn)

/-! ## The rational-input variant and the fuel-indexed loop -/

/-- The loop never returns a level below the one it started at. -/
theorem levelLoopQ_ge (totalPoints : ℚ) :
    ∀ (level pointsUsed : ℕ), level ≤ levelLoopQ totalPoints level pointsUsed := by
  intro level pointsUsed
  induction level, pointsUsed using levelLoopQ.induct totalPoints with
  | case1 level pointsUsed h =>
    unfold levelLoopQ
    rw [if_pos h]
  | case2 level pointsUsed h ih =>
    unfold levelLoopQ
    rw [if_neg h]
    omega

/-- For every starting state the step-indexed loop reaches the exit of the
unbounded loop given enough iterations. -/
theorem levelLoopFuel_complete (totalPoints : ℤ) :
    ∀ (level pointsUsed : ℕ), ∃ fuel,
      levelLoopFuel totalPoints level pointsUsed fuel =
        some (levelLoop totalPoints level pointsUsed) := by
  intro level pointsUsed
  induction level, pointsUsed using levelLoop.induct totalPoints with
  | case1 level pointsUsed h =>
    refine ⟨1, ?_⟩
    unfold levelLoopFuel
    rw [if_pos h]
    unfold levelLoop
    rw [if_pos h]
  | case2 level pointsUsed h ih =>
    obtain ⟨fuel, hf⟩ := ih
    refine ⟨fuel + 1, ?_⟩
    conv_rhs => rw [levelLoop.eq_def]
    rw [if_neg h]
    unfold levelLoopFuel
    rw [if_neg h]
    exact hf

/-- The step cost grows without bound: level `n + 1` already costs at least
`n` points to leave. -/
theorem le_getPointsRequiredForLevelUp (n : ℕ) : n ≤ getPointsRequiredForLevelUp (n + 1) := by
  have key : ∀ m : ℕ, m * 2 ^ m ≤ 50 * 3 ^ m := by
    intro m
    induction m with
    | zero => norm_num
    | succ k ih =>
      have h23 : (2 : ℕ) ^ k ≤ 3 ^ k := Nat.pow_le_pow_left (by norm_num) _
      calc (k + 1) * 2 ^ (k + 1) = k * 2 ^ k * 2 + 2 * 2 ^ k := by ring
        _ ≤ 50 * 3 ^ k * 2 + 2 * 3 ^ k :=
            Nat.add_le_add (Nat.mul_le_mul_right 2 ih) (Nat.mul_le_mul_left 2 h23)
        _ = 102 * 3 ^ k := by ring
        _ ≤ 150 * 3 ^ k := Nat.mul_le_mul_right _ (by norm_num)
        _ = 50 * 3 ^ (k + 1) := by ring
  show n ≤ BASE_POINTS * 3 ^ (n + 1 - 1) / 2 ^ (n + 1 - 1)
  simp only [Nat.add_sub_cancel]
  rw [Nat.le_div_iff_mul_le (Nat.pos_pow_of_pos _ (by norm_num))]
  exact key n

/-! ## The client-side mirror equals the server-side engine -/

/-- The two copies of the step-cost function agree definitionally. -/
theorem client_getPointsRequiredForLevelUp_eq (L : ℕ) :
    Client.getPointsRequiredForLevelUp L = getPointsRequiredForLevelUp L := rfl

/-- The two copies of the cumulative-cost function agree definitionally. -/
theorem client_getPointsRequiredForLevel_eq (L : ℕ) :
    Client.getPointsRequiredForLevel L = getPointsRequiredForLevel L := rfl

/-- The two copies of the while loop agree on every state. -/
theorem client_levelLoop_eq (totalPoints : ℤ) :
    ∀ (level pointsUsed : ℕ),
      Client.levelLoop totalPoints level pointsUsed = levelLoop totalPoints level pointsUsed := by
  intro level pointsUsed
  induction level, pointsUsed using Client.levelLoop.induct totalPoints with
  | case1 level pointsUsed h =>
    have h' : totalPoints < ((pointsUsed + getPointsRequiredForLevelUp level : ℕ) : ℤ) := h
    unfold Client.levelLoop levelLoop
    rw [if_pos h, if_pos h']
  | case2 level pointsUsed h ih =>
    have h' : ¬ totalPoints < ((pointsUsed + getPointsRequiredForLevelUp level : ℕ) : ℤ) := h
    unfold Client.levelLoop levelLoop
    rw [if_neg h, if_neg h']
    exact ih

/-- The two copies of `calculateLevelFromPoints` agree on every total. -/
theorem client_calculateLevelFromPoints_eq (T : ℤ) :
    Client.calculateLevelFromPoints T = calculateLevelFromPoints T := by
  unfold Client.calculateLevelFromPoints calculateLevelFromPoints
  by_cases h : T < 0
  · rw [if_pos h, if_pos h]
  · rw [if_neg h, if_neg h]
    exact client_levelLoop_eq T 1 0

/-- The two copies of `getLevelProgress` agree on every total. -/
theorem client_getLevelProgress_eq (T : ℤ) :
    Client.getLevelProgress T = getLevelProgress T := by
  unfold Client.getLevelProgress getLevelProgress
  rw [client_calculateLevelFromPoints_eq]
  rfl

/-! ## Claim theorems -/

/-- C1: Inverse consistency — for every integer `T ≥ 0`, with
`L = calculateLevelFromPoints T`, `getPointsRequiredForLevel L ≤ T` and
`T < getPointsRequiredForLevel (L+1)`. -/
theorem levelFromPoints_inverse_consistent (T : ℤ) (hT : 0 ≤ T) :
    (getPointsRequiredForLevel (calculateLevelFromPoints T) : ℤ) ≤ T ∧
      T < getPointsRequiredForLevel (calculateLevelFromPoints T + 1) :=
  (calculateLevelFromPoints_spec T hT).2

/-- Witness for C1 at the concrete total `T = 300`. -/
theorem levelFromPoints_inverse_consistent_witness :
    (getPointsRequiredForLevel (calculateLevelFromPoints 300) : ℤ) ≤ 300 ∧
      (300 : ℤ) < (getPointsRequiredForLevel (calculateLevelFromPoints 300 + 1) : ℤ) :=
  levelFromPoints_inverse_consistent 300 (by norm_num)

/-- C2 counterexample: the claimed reference value
`getPointsRequiredForLevel 4 = 238` is false — the code yields 237, because
the step out of level 3 is `floor(50 * 1.5^2) = floor(112.5) = 112`, not
the 113 suggested by the source's own comment. -/
theorem cumulativeRequired_ref_value_false : getPointsRequiredForLevel 4 ≠ 238 := by decide

/-- C2 amended: under BASE=50, GROWTH=1.5 the cumulative costs are
`c(1) = 0`, `c(2) = 50`, `c(3) = 125`, `c(4) = 237`, `c(5) = 405`. -/
theorem cumulativeRequired_exact_values :
    getPointsRequiredForLevel 1 = 0 ∧ getPointsRequiredForLevel 2 = 50 ∧
      getPointsRequiredForLevel 3 = 125 ∧ getPointsRequiredForLevel 4 = 237 ∧
      getPointsRequiredForLevel 5 = 405 := by decide

/-- C3 counterexample: `checkLevelUp(0, 300)` does not return the claimed
record with `newLevel = 5`, `levelsGained = 4`. -/
theorem checkLevelUp_0_300_not_ref :
    checkLevelUp 0 300 ≠
      { leveledUp := true, oldLevel := 1, newLevel := 5, levelsGained := 4 } := by
  have h0 : calculateLevelFromPoints 0 = 1 := calculateLevelFromPoints_zero
  have h3 : calculateLevelFromPoints 300 = 4 := calculateLevelFromPoints_three_hundred
  simp only [checkLevelUp, h0, h3]
  decide

/-- C3 amended: `checkLevelUp(0, 300)` returns `oldLevel = 1`,
`newLevel = 4`, `leveledUp = true`, `levelsGained = 3` (300 points reach
level 4, since `c(4) = 237 ≤ 300 < 405 = c(5)`). -/
theorem checkLevelUp_0_300_exact :
    checkLevelUp 0 300 =
      { leveledUp := true, oldLevel := 1, newLevel := 4, levelsGained := 3 } := by
  have h0 : calculateLevelFromPoints 0 = 1 := calculateLevelFromPoints_zero
  have h3 : calculateLevelFromPoints 300 = 4 := calculateLevelFromPoints_three_hundred
  simp only [checkLevelUp, h0, h3]
  decide

/-- C4 counterexample: on the non-integer input `0.5` the engine does not
fail with an InvalidInput error — it silently runs the same arithmetic and
returns level 1 (the function has no error channel at all). -/
theorem fractional_input_no_error : calculateLevelFromPointsQ (1 / 2) = 1 := by
  unfold calculateLevelFromPointsQ
  rw [if_neg (by norm_num)]
  unfold levelLoopQ
  rw [if_pos (by norm_num [getPointsRequiredForLevelUp, BASE_POINTS])]

/-- C4 amended: the engine performs no input validation whatsoever — every
finite rational input, integer or fractional, is processed by the same
arithmetic and produces an ordinary level `≥ 1` (for example `50.5 ↦ 2`);
no InvalidInput error exists in the code. -/
theorem no_input_validation :
    (∀ q : ℚ, 1 ≤ calculateLevelFromPointsQ q) ∧
      calculateLevelFromPointsQ (101 / 2) = 2 := by
  constructor
  · intro q
    unfold calculateLevelFromPointsQ
    split
    · exact le_rfl
    · exact levelLoopQ_ge q 1 0
  · unfold calculateLevelFromPointsQ
    rw [if_neg (by norm_num)]
    unfold levelLoopQ
    rw [if_neg (by norm_num [getPointsRequiredForLevelUp, BASE_POINTS])]
    unfold levelLoopQ
    rw [if_pos (by norm_num [getPointsRequiredForLevelUp, BASE_POINTS])]

/-- C5 counterexample: for the negative total `-5` the progress report does
not show zero progress — `pointsInCurrentLevel` is `-5`, not `0`. -/
theorem negative_progress_not_zero : (getLevelProgress (-5)).pointsInCurrentLevel ≠ 0 := by
  rw [getLevelProgress_pointsInCurrentLevel]
  have h : calculateLevelFromPoints (-5) = 1 := by
    unfold calculateLevelFromPoints
    rw [if_pos (by norm_num)]
  rw [h]
  decide

/-- C5 amended: for every negative total `T`, `calculateLevelFromPoints T = 1`
and `getLevelProgress T` reports level 1, but the progress is not zero:
`pointsInCurrentLevel = T < 0` and `progressPercentage < 0`. -/
theorem negative_total_behavior (T : ℤ) (hT : T < 0) :
    calculateLevelFromPoints T = 1 ∧
      (getLevelProgress T).currentLevel = 1 ∧
      (getLevelProgress T).pointsInCurrentLevel = T ∧
      (getLevelProgress T).progressPercentage < 0 := by
  have h : calculateLevelFromPoints T = 1 := by
    unfold calculateLevelFromPoints
    rw [if_pos hT]
  have hc1 : getPointsRequiredForLevel 1 = 0 := rfl
  have hc2 : getPointsRequiredForLevel (1 + 1) = 50 := by decide
  refine ⟨h, ?_, ?_, ?_⟩
  · rw [getLevelProgress_currentLevel, h]
  · rw [getLevelProgress_pointsInCurrentLevel, h, hc1]
    push_cast
    ring
  · rw [getLevelProgress_progressPercentage, h, hc1, hc2]
    push_cast
    rw [Int.fdiv_eq_ediv _ (by norm_num)]
    exact Int.ediv_neg' (by omega) (by norm_num)

/-- Witness for C5 at the concrete total `T = -5`. -/
theorem negative_total_behavior_witness :
    calculateLevelFromPoints (-5) = 1 ∧
      (getLevelProgress (-5)).currentLevel = 1 ∧
      (getLevelProgress (-5)).pointsInCurrentLevel = -5 ∧
      (getLevelProgress (-5)).progressPercentage < 0 :=
  negative_total_behavior (-5) (by norm_num)

/-- C6: `calculateLevelFromPoints` is monotone in the total for `0 ≤ a ≤ b`;
`getPointsRequiredForLevel` is strictly increasing in the level for
`level ≥ 1` and always a non-negative integer. -/
theorem leveling_monotone :
    (∀ a b : ℤ, 0 ≤ a → a ≤ b → calculateLevelFromPoints a ≤ calculateLevelFromPoints b) ∧
      (∀ L : ℕ, 1 ≤ L → getPointsRequiredForLevel L < getPointsRequiredForLevel (L + 1)) ∧
      (∀ L : ℕ, 0 ≤ (getPointsRequiredForLevel L : ℤ)) := by
  refine ⟨fun a b ha hab => calculateLevelFromPoints_le ha hab, fun L hL => ?_,
    fun L => Int.natCast_nonneg _⟩
  rw [getPointsRequiredForLevel_succ L hL]
  have := getPointsRequiredForLevelUp_ge L
  omega

/-- Witness for C6 at the concrete totals `60 ≤ 300` and level `2`. -/
theorem leveling_monotone_witness :
    calculateLevelFromPoints 60 ≤ calculateLevelFromPoints 300 ∧
      getPointsRequiredForLevel 2 < getPointsRequiredForLevel 3 :=
  ⟨leveling_monotone.1 60 300 (by norm_num) (by norm_num),
    leveling_monotone.2.1 2 (by norm_num)⟩

/-- C7: for every `T ≥ 0` the progress report satisfies
`0 ≤ progressPercentage ≤ 100`, `pointsToNextLevel ≥ 0`, and the divisor
`pointsNeededForNextLevel` is at least 1 (so no division by zero). -/
theorem levelProgress_bounds (T : ℤ) (hT : 0 ≤ T) :
    0 ≤ (getLevelProgress T).progressPercentage ∧
      (getLevelProgress T).progressPercentage ≤ 100 ∧
      0 ≤ (getLevelProgress T).pointsToNextLevel ∧
      1 ≤ (getLevelProgress T).pointsNeededForNextLevel := by
  obtain ⟨h1, h2, h3⟩ := calculateLevelFromPoints_spec T hT
  have hsucc : (getPointsRequiredForLevel (calculateLevelFromPoints T + 1) : ℤ) =
      (getPointsRequiredForLevel (calculateLevelFromPoints T) : ℤ) +
        (getPointsRequiredForLevelUp (calculateLevelFromPoints T) : ℤ) := by
    rw [← Nat.cast_add, getPointsRequiredForLevel_succ _ h1]
  have hstep := getPointsRequiredForLevelUp_ge (calculateLevelFromPoints T)
  have hpic : 0 ≤ T - (getPointsRequiredForLevel (calculateLevelFromPoints T) : ℤ) := by omega
  have hlt : T - (getPointsRequiredForLevel (calculateLevelFromPoints T) : ℤ) <
      (getPointsRequiredForLevel (calculateLevelFromPoints T + 1) : ℤ) -
        getPointsRequiredForLevel (calculateLevelFromPoints T) := by omega
  obtain ⟨hb1, hb2⟩ := pct_bounds hpic hlt
  rw [getLevelProgress_progressPercentage, getLevelProgress_pointsToNextLevel,
    getLevelProgress_pointsNeededForNextLevel]
  refine ⟨hb1, hb2, by omega, by omega⟩

/-- Witness for C7 at the concrete total `T = 100`. -/
theorem levelProgress_bounds_witness :
    0 ≤ (getLevelProgress 100).progressPercentage ∧
      (getLevelProgress 100).progressPercentage ≤ 100 ∧
      0 ≤ (getLevelProgress 100).pointsToNextLevel ∧
      1 ≤ (getLevelProgress 100).pointsNeededForNextLevel :=
  levelProgress_bounds 100 (by norm_num)

/-- C8: the unbounded `while (true)` loop terminates for every integer
total — some finite iteration count always reaches the exit — and the step
cost grows without bound. -/
theorem levelLoop_terminates :
    (∀ totalPoints : ℤ, ∃ fuel,
        levelLoopFuel totalPoints 1 0 fuel = some (levelLoop totalPoints 1 0)) ∧
      (∀ M : ℕ, ∃ L : ℕ, M ≤ getPointsRequiredForLevelUp L) :=
  ⟨fun t => levelLoopFuel_complete t 1 0,
    fun M => ⟨M + 1, le_getPointsRequiredForLevelUp M⟩⟩

/-- C9: the client-side leveling module is extensionally equal to the
server-side one — same constants (`BASE_POINTS = 50`, `MULTIPLIER = 1.5`)
and the four operations agree on every input. -/
theorem client_mirrors_server :
    Client.BASE_POINTS = BASE_POINTS ∧ BASE_POINTS = 50 ∧
      Client.MULTIPLIER = MULTIPLIER ∧ MULTIPLIER = 3 / 2 ∧
      (∀ L, Client.getPointsRequiredForLevel L = getPointsRequiredForLevel L) ∧
      (∀ L, Client.getPointsRequiredForLevelUp L = getPointsRequiredForLevelUp L) ∧
      (∀ T, Client.calculateLevelFromPoints T = calculateLevelFromPoints T) ∧
      (∀ T, Client.getLevelProgress T = getLevelProgress T) :=
  ⟨rfl, rfl, rfl, rfl, client_getPointsRequiredForLevel_eq,
    client_getPointsRequiredForLevelUp_eq, client_calculateLevelFromPoints_eq,
    client_getLevelProgress_eq⟩

/-- C10: when points decrease (`before > after ≥ 0`), `checkLevelUp` still
returns a well-defined record with `leveledUp = false`; `levelsGained` is
always the (possibly negative) difference of derived levels, and
`leveledUp` is true exactly when the derived level strictly increases. -/
theorem checkLevelUp_on_decrease :
    (∀ before after : ℤ, 0 ≤ after → after < before →
        (checkLevelUp before after).leveledUp = false) ∧
      (∀ before after : ℤ, (checkLevelUp before after).levelsGained =
        (calculateLevelFromPoints after : ℤ) - (calculateLevelFromPoints before : ℤ)) ∧
      (∀ before after : ℤ, (checkLevelUp before after).leveledUp = true ↔
        calculateLevelFromPoints before < calculateLevelFromPoints after) := by
  refine ⟨?_, fun b a => rfl, fun b a => by simp [checkLevelUp]⟩
  intro b a ha hab
  have h := calculateLevelFromPoints_le ha (le_of_lt hab)
  simp only [checkLevelUp, decide_eq_false_iff_not, not_lt]
  exact h

/-- Witness for C10 at the concrete decrease from 60 points to 0. -/
theorem checkLevelUp_on_decrease_witness :
    (checkLevelUp 60 0).leveledUp = false ∧
      (checkLevelUp 60 0).levelsGained =
        (calculateLevelFromPoints (0 : ℤ) : ℤ) - (calculateLevelFromPoints (60 : ℤ) : ℤ) :=
  ⟨checkLevelUp_on_decrease.1 60 0 (by norm_num) (by norm_num),
    checkLevelUp_on_decrease.2.1 60 0⟩
